import Mathlib

/-!
# PromptShield: shallow embedding and verification

A shallow embedding of the `prompt_shield` package (detector, cache, api,
storage modules), with theorems settling the specification claims.

Modelling conventions:
* Python floats are modelled as rationals (`ℚ`).  All confidence values the
  program manipulates come from JSON numbers, where this is exact.
* Fallible Python code is modelled with `Except PyExc`, where `PyExc`
  distinguishes the exception classes that matter to the control flow
  (which exceptions the `except` clauses catch).
* JSON payloads are modelled by the inductive `JValue`; `json_loads` is an
  executable JSON text parser.  Two documented simplifications, in positions
  where they are observably equivalent for the code paths proved about:
  the non-standard literals `NaN`/`Infinity` are rejected by `json_loads`,
  and `float(str)` maps `inf`/`nan` spellings to a `ValueError` (in the real
  code such values always subsequently fail the pydantic `0 ≤ c ≤ 1` bound,
  producing the same parse-failure record).
-/

namespace PromptShield

/-- JSON values as produced by `json.loads`
(objects keep their key/value pairs in textual order; duplicate keys may
occur, and lookups take the last binding, matching Python dict insertion). -/
inductive JValue where
  | null : JValue
  | bool (b : Bool) : JValue
  | num (q : ℚ) : JValue
  | str (s : String) : JValue
  | arr (xs : List JValue) : JValue
  | obj (kvs : List (String × JValue)) : JValue

/-- The Python exception classes relevant to the detector's control flow.
`_parse_response` catches exactly `json.JSONDecodeError`, `KeyError`
and `ValueError` (pydantic's `ValidationError` is a `ValueError`);
`TypeError` and `AttributeError` escape it. -/
inductive PyExc where
  | jsonDecodeError (msg : String) : PyExc
  | keyError (msg : String) : PyExc
  | valueError (msg : String) : PyExc
  | typeError (msg : String) : PyExc
  | attributeError (msg : String) : PyExc
deriving DecidableEq, Repr

/-- The message carried by an exception (`str(e)` in Python). -/
def PyExc.msg : PyExc → String
  | .jsonDecodeError m => m
  | .keyError m => m
  | .valueError m => m
  | .typeError m => m
  | .attributeError m => m

/-- Whether `except (json.JSONDecodeError, KeyError, ValueError)` catches
the exception (detector.py line 216). -/
def PyExc.caught : PyExc → Bool
  | .jsonDecodeError _ => true
  | .keyError _ => true
  | .valueError _ => true
  | .typeError _ => false
  | .attributeError _ => false

/-- `models.AttackType` (models.py lines 6-13). -/
inductive AttackType where
  | NONE
  | PROMPT_EXTRACTION
  | PROMPT_INJECTION
  | JAILBREAK
  | INSTRUCTION_OVERRIDE
  | ROLEPLAY_MANIPULATION
  | UNKNOWN
deriving DecidableEq, Repr

/-- The string value of each `AttackType` member. -/
def AttackType.value : AttackType → String
  | .NONE => "none"
  | .PROMPT_EXTRACTION => "prompt_extraction"
  | .PROMPT_INJECTION => "prompt_injection"
  | .JAILBREAK => "jailbreak"
  | .INSTRUCTION_OVERRIDE => "instruction_override"
  | .ROLEPLAY_MANIPULATION => "roleplay_manipulation"
  | .UNKNOWN => "unknown"

/-- `models.ShieldResult` (models.py lines 16-25).  The pydantic constraint
`confidence: float, ge=0, le=1` is enforced at construction time and is
modelled in the construction functions below, not in the type. -/
structure ShieldResult where
  is_safe : Bool
  attack_detected : Bool
  attack_type : AttackType
  confidence : ℚ
  reason : Option String
  flagged : Bool
  cached : Bool
deriving DecidableEq, Repr

/-- `ShieldResult.should_block` (models.py lines 27-30). -/
def ShieldResult.should_block (r : ShieldResult) : Bool :=
  r.attack_detected && decide (mkRat 8 10 ≤ r.confidence)

/-- `ShieldResult.should_flag` (models.py lines 32-35). -/
def ShieldResult.should_flag (r : ShieldResult) : Bool :=
  r.attack_detected && decide (mkRat 4 10 ≤ r.confidence ∧ r.confidence < mkRat 8 10)

/-- `models.AttackLog` (models.py lines 52-60). -/
structure AttackLog where
  timestamp : String
  prompt_hash : String
  prompt_preview : String
  attack_type : AttackType
  confidence : ℚ
  reason : Option String
deriving DecidableEq, Repr

/-! ## Python-semantics helpers -/

/-- Python truthiness of a JSON-decoded value (`if x:` / `not x`). -/
def pyTruthy : JValue → Bool
  | .null => false
  | .bool b => b
  | .num q => decide (q ≠ 0)
  | .str s => decide (s ≠ "")
  | .arr xs => !xs.isEmpty
  | .obj kvs => !kvs.isEmpty

/-- `dict.get(k, default)`: last binding wins, matching Python dict
construction from (possibly duplicate) JSON keys. -/
def jGetD (kvs : List (String × JValue)) (k : String) (d : JValue) : JValue :=
  match kvs.foldl (fun acc p => if p.1 = k then some p.2 else acc)
      (none : Option JValue) with
  | some v => v
  | none => d

/-- `dict.get(k)` without default (used for the cache round-trip model). -/
def jGet (kvs : List (String × JValue)) (k : String) : Option JValue :=
  kvs.foldl (fun acc p => if p.1 = k then some p.2 else acc) none

/-- Pydantic v2 lax coercion to `bool` (used for the `is_safe`,
`attack_detected`, `flagged`, `cached` fields).  Accepts bools, the numbers
0/1 and the usual boolean strings; anything else raises `ValidationError`,
a subclass of `ValueError`. -/
def pydanticBool : JValue → Except PyExc Bool
  | .bool b => .ok b
  | .num q =>
    if q = 0 then .ok false
    else if q = 1 then .ok true
    else .error (.valueError "validation error: bool")
  | .str s =>
    if s ∈ ["true", "t", "yes", "y", "on", "1"] then .ok true
    else if s ∈ ["false", "f", "no", "n", "off", "0"] then .ok false
    else .error (.valueError "validation error: bool")
  | _ => .error (.valueError "validation error: bool")

/-- Pydantic v2 lax coercion to `Optional[str]` (the `reason` field). -/
def pydanticOptStr : JValue → Except PyExc (Option String)
  | .null => .ok none
  | .str s => .ok (some s)
  | _ => .error (.valueError "validation error: str")

/-- Whitespace as stripped by Python's `str.strip()` (ASCII fragment). -/
def isPyWs (c : Char) : Bool :=
  c = ' ' || c = '\t' || c = '\n' || c = '\x0d' || c = '\x0b' || c = '\x0c'

/-- Remove leading `str.strip()` whitespace. -/
def dropLeading (l : List Char) : List Char := l.dropWhile isPyWs

/-- Remove trailing `str.strip()` whitespace. -/
def dropTrailing (l : List Char) : List Char :=
  ((l.reverse).dropWhile isPyWs).reverse

/-- Python `str.strip()` on a character list. -/
def stripChars (l : List Char) : List Char := dropTrailing (dropLeading l)

/-- A decimal digit. -/
def isDigitCh (c : Char) : Bool := '0' ≤ c && c ≤ '9'

/-- Numeric value of a digit character. -/
def digitVal (c : Char) : ℕ := c.toNat - 48

/-! ## Python `float()` on strings

Python's `float(str)` accepts an optionally signed decimal with optional
fraction and exponent, with single underscores allowed between digits. -/

/-- Consume a run of digits (with Python's between-digit underscores),
returning accumulated value, number of digits consumed and the rest. -/
def uDigits (acc : ℕ) (n : ℕ) : List Char → ℕ × ℕ × List Char
  | '_' :: d :: rest =>
    if isDigitCh d then uDigits (acc * 10 + digitVal d) (n + 1) rest
    else (acc, n, '_' :: d :: rest)
  | c :: rest =>
    if isDigitCh c then uDigits (acc * 10 + digitVal c) (n + 1) rest
    else (acc, n, c :: rest)
  | [] => (acc, n, [])

/-- Parse the `float()` mantissa: `digits [. [digits]]` or `. digits`.
Returns the numerator, the power-of-ten denominator exponent and the rest:
the mantissa value is `numerator / 10 ^ fracDigits`. -/
def pyMantissa (l : List Char) : Option (ℕ × ℕ × List Char) :=
  match l with
  | '.' :: t =>
    match t with
    | c :: _ =>
      if isDigitCh c then
        let (fv, fc, r) := uDigits 0 0 t
        some (fv, fc, r)
      else none
    | [] => none
  | c :: _ =>
    if isDigitCh c then
      let (iv, _, r1) := uDigits 0 0 l
      match r1 with
      | '.' :: t2 =>
        match t2 with
        | d :: _ =>
          if isDigitCh d then
            let (fv, fc, r2) := uDigits 0 0 t2
            some (iv * 10 ^ fc + fv, fc, r2)
          else some (iv, 0, t2)
        | [] => some (iv, 0, [])
      | _ => some (iv, 0, r1)
    else none
  | [] => none

/-- Parse the optional `float()` exponent; must consume the whole rest.
Returns the exponent sign and magnitude. -/
def pyExponent (l : List Char) : Option (Bool × ℕ) :=
  match l with
  | [] => some (false, 0)
  | e :: t =>
    if e = 'e' || e = 'E' then
      let (esgn, t1) : Bool × List Char :=
        match t with
        | '+' :: t2 => (false, t2)
        | '-' :: t2 => (true, t2)
        | _ => (false, t)
      match t1 with
      | c :: _ =>
        if isDigitCh c then
          let (ev, _, r) := uDigits 0 0 t1
          if r = [] then some (esgn, ev) else none
        else none
      | [] => none
    else none

/-- Python `float(s)` for a string, as a rational.  `inf`/`nan` spellings
are mapped to failure: see the module comment (in the parser they can only
reach the confidence field, where the real code's non-finite value then
fails the pydantic range check, yielding the same parse-failure record). -/
def pyFloatOfChars (l0 : List Char) : Option ℚ :=
  let l := stripChars l0
  let (neg, l1) : Bool × List Char :=
    match l with
    | '+' :: t => (false, t)
    | '-' :: t => (true, t)
    | _ => (false, l)
  match pyMantissa l1 with
  | some (mnum, fc, r) =>
    match pyExponent r with
    | some (esgn, ev) =>
      let num : ℤ := if neg then -(mnum : ℤ) else (mnum : ℤ)
      if esgn then some (mkRat num (10 ^ fc * 10 ^ ev))
      else some (mkRat (num * ((10 ^ ev : ℕ) : ℤ)) (10 ^ fc))
    | none => none
  | none => none

/-- Python `float(x)` on a JSON-decoded value (detector.py line 188).
Numbers and bools convert; strings are parsed; `None`, lists and dicts
raise `TypeError` — which `_parse_response`'s `except` clause does NOT
catch. -/
def pyFloat : JValue → Except PyExc ℚ
  | .num q => .ok q
  | .bool b => .ok (if b then 1 else 0)
  | .str s =>
    match pyFloatOfChars s.toList with
    | some q => .ok q
    | none => .error (.valueError "could not convert string to float")
  | .null => .error (.typeError "float() argument must be a string or a real number, not NoneType")
  | .arr _ => .error (.typeError "float() argument must be a string or a real number, not list")
  | .obj _ => .error (.typeError "float() argument must be a string or a real number, not dict")

/-! ## `json.loads`

An executable JSON text parser producing `JValue`, following Python's
`json.loads` on standard JSON (strict mode: raw control characters are
rejected inside strings; `\uXXXX` escapes are decoded as single code
units). -/

/-- JSON structural whitespace. -/
def isJsonWs (c : Char) : Bool := c = ' ' || c = '\t' || c = '\n' || c = '\x0d'

/-- Skip JSON whitespace. -/
def skipJsonWs (l : List Char) : List Char := l.dropWhile isJsonWs

/-- Hex digit value. -/
def hexVal (c : Char) : Option ℕ :=
  if isDigitCh c then some (digitVal c)
  else if 'a' ≤ c && c ≤ 'f' then some (c.toNat - 87)
  else if 'A' ≤ c && c ≤ 'F' then some (c.toNat - 55)
  else none

/-- Single-character JSON string escapes. -/
def escChar (c : Char) : Option Char :=
  if c = '"' then some '"'
  else if c = '\\' then some '\\'
  else if c = '/' then some '/'
  else if c = 'b' then some '\x08'
  else if c = 'f' then some '\x0c'
  else if c = 'n' then some '\n'
  else if c = 'r' then some '\x0d'
  else if c = 't' then some '\t'
  else none

/-- Scan a JSON string body (after the opening quote), returning the decoded
characters and the rest after the closing quote. -/
def strLoop : ℕ → List Char → Option (List Char × List Char)
  | 0, _ => none
  | _ + 1, [] => none
  | f + 1, c :: t =>
    if c = '"' then some ([], t)
    else if c = '\\' then
      match t with
      | [] => none
      | e :: t2 =>
        if e = 'u' then
          match t2 with
          | a :: b :: c3 :: d :: t3 =>
            match hexVal a, hexVal b, hexVal c3, hexVal d with
            | some ha, some hb, some hc, some hd =>
              match strLoop f t3 with
              | some (cs, r) =>
                some (Char.ofNat (((ha * 16 + hb) * 16 + hc) * 16 + hd) :: cs, r)
              | none => none
            | _, _, _, _ => none
          | _ => none
        else
          match escChar e with
          | some ec =>
            match strLoop f t2 with
            | some (cs, r) => some (ec :: cs, r)
            | none => none
          | none => none
    else if c.toNat < 32 then none
    else
      match strLoop f t with
      | some (cs, r) => some (c :: cs, r)
      | none => none

/-- Parse a JSON number (strict JSON grammar: no leading zeros, no
underscores, fraction and exponent digits required where present). -/
def parseJsonNumber (l : List Char) : Option (ℚ × List Char) :=
  let (neg, l1) : Bool × List Char :=
    match l with
    | '-' :: t => (true, t)
    | _ => (false, l)
  let intPart : Option (ℕ × List Char) :=
    match l1 with
    | '0' :: t =>
      match t with
      | d :: _ => if isDigitCh d then none else some (0, t)
      | [] => some (0, [])
    | c :: _ =>
      if isDigitCh c then
        let ds := l1.takeWhile isDigitCh
        some (ds.foldl (fun a d => a * 10 + digitVal d) 0, l1.dropWhile isDigitCh)
      else none
    | [] => none
  match intPart with
  | none => none
  | some (iv, r1) =>
    let fracPart : Option (ℕ × ℕ × List Char) :=
      match r1 with
      | '.' :: t2 =>
        match t2 with
        | d :: _ =>
          if isDigitCh d then
            let ds := t2.takeWhile isDigitCh
            let fv := ds.foldl (fun a d => a * 10 + digitVal d) 0
            some (iv * 10 ^ ds.length + fv, ds.length, t2.dropWhile isDigitCh)
          else none
        | [] => none
      | _ => some (iv, 0, r1)
    match fracPart with
    | none => none
    | some (mnum, fc, r2) =>
      let expPart : Option (Bool × ℕ × List Char) :=
        match r2 with
        | e :: t3 =>
          if e = 'e' || e = 'E' then
            let (esgn, t4) : Bool × List Char :=
              match t3 with
              | '+' :: t5 => (false, t5)
              | '-' :: t5 => (true, t5)
              | _ => (false, t3)
            match t4 with
            | d :: _ =>
              if isDigitCh d then
                let ds := t4.takeWhile isDigitCh
                some (esgn, ds.foldl (fun a d => a * 10 + digitVal d) 0,
                  t4.dropWhile isDigitCh)
              else none
            | [] => none
          else some (false, 0, r2)
        | [] => some (false, 0, r2)
      match expPart with
      | none => none
      | some (esgn, ev, r3) =>
        let num : ℤ := if neg then -(mnum : ℤ) else (mnum : ℤ)
        if esgn then some (mkRat num (10 ^ fc * 10 ^ ev), r3)
        else some (mkRat (num * ((10 ^ ev : ℕ) : ℤ)) (10 ^ fc), r3)

/-- Parse a comma-separated run of array elements up to `]`, given an
element parser `p`.  Fueled: every recursive step consumes input. -/
def parseElems (p : List Char → Option (JValue × List Char)) :
    ℕ → List Char → Option (List JValue × List Char)
  | 0, _ => none
  | f + 1, l =>
    match p l with
    | none => none
    | some (v, r) =>
      match skipJsonWs r with
      | ',' :: r2 =>
        match parseElems p f (skipJsonWs r2) with
        | some (vs, r3) => some (v :: vs, r3)
        | none => none
      | ']' :: r2 => some ([v], r2)
      | _ => none

/-- Parse a comma-separated run of object members up to `}`. -/
def parseMembers (p : List Char → Option (JValue × List Char)) :
    ℕ → List Char → Option (List (String × JValue) × List Char)
  | 0, _ => none
  | f + 1, l =>
    match l with
    | '"' :: t =>
      match strLoop (t.length + 1) t with
      | none => none
      | some (cs, r) =>
        match skipJsonWs r with
        | ':' :: r2 =>
          match p (skipJsonWs r2) with
          | none => none
          | some (v, r3) =>
            match skipJsonWs r3 with
            | ',' :: r4 =>
              match parseMembers p f (skipJsonWs r4) with
              | some (ms, r5) => some ((String.mk cs, v) :: ms, r5)
              | none => none
            | '}' :: r4 => some ([(String.mk cs, v)], r4)
            | _ => none
        | _ => none
    | _ => none

/-- Parse one JSON value (leading whitespace allowed). -/
def parseJ : ℕ → List Char → Option (JValue × List Char)
  | 0, _ => none
  | f + 1, l0 =>
    match skipJsonWs l0 with
    | [] => none
    | '{' :: t =>
      match skipJsonWs t with
      | '}' :: r => some (.obj [], r)
      | t1 =>
        match parseMembers (parseJ f) f t1 with
        | some (ms, r) => some (.obj ms, r)
        | none => none
    | '[' :: t =>
      match skipJsonWs t with
      | ']' :: r => some (.arr [], r)
      | t1 =>
        match parseElems (parseJ f) f t1 with
        | some (vs, r) => some (.arr vs, r)
        | none => none
    | '"' :: t =>
      match strLoop (t.length + 1) t with
      | some (cs, r) => some (.str (String.mk cs), r)
      | none => none
    | 't' :: 'r' :: 'u' :: 'e' :: r => some (.bool true, r)
    | 'f' :: 'a' :: 'l' :: 's' :: 'e' :: r => some (.bool false, r)
    | 'n' :: 'u' :: 'l' :: 'l' :: r => some (.null, r)
    | l =>
      match parseJsonNumber l with
      | some (q, r) => some (.num q, r)
      | none => none

/-- `json.loads` (detector.py line 185): parse a full document; trailing
non-whitespace is "Extra data".  Failure is a `json.JSONDecodeError`. -/
def json_loads (s : String) : Except PyExc JValue :=
  match parseJ (s.toList.length + 1) s.toList with
  | some (v, r) =>
    if skipJsonWs r = [] then .ok v else .error (.jsonDecodeError "Extra data")
  | none => .error (.jsonDecodeError "Expecting value")

/-! ## The response parser (`PromptDetector._parse_response`) -/

/-- The fenced-code-block marker. -/
def fenceChars : List Char := ['`', '`', '`']

/-- Characters up to (excluding) the next occurrence of ```` ``` ````, or all
of them — i.e. `s.split("```")[1]` relative to the text after the opening
fence. -/
def takeUntilFence : List Char → List Char
  | [] => []
  | c :: rest =>
    if (c :: rest).take 3 = fenceChars then []
    else c :: takeUntilFence rest

/-- The markdown-fence cleanup of `_parse_response` (detector.py
lines 179-182): if the stripped response starts with ```` ``` ````, keep
`split("```")[1]` and drop a leading `json` language tag. -/
def stripFences (l : List Char) : List Char :=
  if l.take 3 = fenceChars then
    let mid := takeUntilFence (l.drop 3)
    if mid.take 4 = ['j', 's', 'o', 'n'] then mid.drop 4 else mid
  else l

/-- The full response cleanup (detector.py lines 178-183): strip, unfence,
strip again. -/
def stripResponse (s : String) : String :=
  String.mk (stripChars (stripFences (stripChars s.toList)))

/-- The `type` → `AttackType` lookup table (detector.py lines 193-200);
strings outside the table map to `UNKNOWN` via `type_map.get(..., UNKNOWN)`. -/
def typeMap (s : String) : AttackType :=
  if s = "prompt_extraction" then .PROMPT_EXTRACTION
  else if s = "prompt_injection" then .PROMPT_INJECTION
  else if s = "jailbreak" then .JAILBREAK
  else if s = "instruction_override" then .INSTRUCTION_OVERRIDE
  else if s = "roleplay_manipulation" then .ROLEPLAY_MANIPULATION
  else if s = "none" then .NONE
  else .UNKNOWN

/-- `type_map.get(attack_type_str, UNKNOWN)` on the raw JSON value: strings
use the table; other hashable values miss it (→ `UNKNOWN`); unhashable
values (lists, dicts) raise `TypeError`. -/
def typeMapGet : JValue → Except PyExc AttackType
  | .str s => .ok (typeMap s)
  | .arr _ => .error (.typeError "unhashable type: list")
  | .obj _ => .error (.typeError "unhashable type: dict")
  | _ => .ok .UNKNOWN

/-- The body of `_parse_response`'s `try` block after `json.loads`
(detector.py lines 187-214), including the pydantic validation performed by
the `ShieldResult(...)` construction.  `.get` on a non-dict raises
`AttributeError`. -/
def parseBody : JValue → Except PyExc ShieldResult
  | .obj kvs =>
    let attackRaw := jGetD kvs "attack" (.bool false)
    match pyFloat (jGetD kvs "confidence" (.num 0)) with
    | .error e => .error e
    | .ok confidence =>
      let typeRaw := jGetD kvs "type" (.str "none")
      let reasonRaw := jGetD kvs "reason" (.str "")
      match typeMapGet typeRaw with
      | .error e => .error e
      | .ok attack_type =>
        let is_safe := !(pyTruthy attackRaw) || decide (confidence < mkRat 8 10)
        let flaggedRaw : JValue :=
          if pyTruthy attackRaw then
            .bool (decide (mkRat 4 10 ≤ confidence ∧ confidence < mkRat 8 10))
          else attackRaw
        match pydanticBool attackRaw with
        | .error e => .error e
        | .ok attack_detected =>
          if 0 ≤ confidence ∧ confidence ≤ 1 then
            match pydanticOptStr reasonRaw with
            | .error e => .error e
            | .ok reason =>
              match pydanticBool flaggedRaw with
              | .error e => .error e
              | .ok flagged =>
                .ok { is_safe := is_safe, attack_detected := attack_detected,
                      attack_type := attack_type, confidence := confidence,
                      reason := reason, flagged := flagged, cached := false }
          else .error (.valueError "validation error: confidence bounds")
  | .str _ => .error (.attributeError "str object has no attribute get")
  | .arr _ => .error (.attributeError "list object has no attribute get")
  | .num _ => .error (.attributeError "float object has no attribute get")
  | .bool _ => .error (.attributeError "bool object has no attribute get")
  | .null => .error (.attributeError "NoneType object has no attribute get")

/-- The degraded record returned by `_parse_response`'s `except` clause
(detector.py lines 218-225). -/
def parseErrorRecord (e : PyExc) : ShieldResult :=
  { is_safe := true, attack_detected := false, attack_type := .UNKNOWN,
    confidence := 0, reason := some ("Parse error: " ++ e.msg),
    flagged := true, cached := false }

/-- `except (json.JSONDecodeError, KeyError, ValueError)` around the parse
body: caught exceptions yield the degraded record, others propagate. -/
def handleParse (x : Except PyExc ShieldResult) : Except PyExc ShieldResult :=
  match x with
  | .ok r => .ok r
  | .error e => if e.caught then .ok (parseErrorRecord e) else .error e

/-- `PromptDetector._parse_response` (detector.py lines 173-225). -/
def parse_response (s : String) : Except PyExc ShieldResult :=
  handleParse ((json_loads (stripResponse s)).bind parseBody)

/-- The fail-open record of `analyze`'s `except Exception` clause
(detector.py lines 113-120). -/
def analysisErrorRecord (cause : String) : ShieldResult :=
  { is_safe := true, attack_detected := false, attack_type := .UNKNOWN,
    confidence := 0, reason := some ("Analysis error: " ++ cause),
    flagged := true, cached := false }

/-- `PromptDetector.analyze` (detector.py lines 95-120), with the oracle
(provider) call abstracted as its outcome: either the raw response text or
the message of the exception it raised.  The `try` block covers both the
provider call and `_parse_response`, and `except Exception` catches
everything. -/
def analyze (oracle : Except String String) : ShieldResult :=
  match oracle with
  | .error cause => analysisErrorRecord cause
  | .ok response =>
    match parse_response response with
    | .ok r => r
    | .error e => analysisErrorRecord e.msg

/-! ## The verdict cache (`cache.py`)

Stored entries are the JSON of `result.model_dump_json()`, modelled at the
`JValue` level (Python's float/str JSON round-trip is exact for these
values).  Reading performs `ShieldResult(**json.loads(data))`, i.e. the
pydantic validation is re-run on retrieval. -/

/-- Pydantic v2 lax coercion to `float` for the `confidence` field on cache
load (numbers are accepted; numeric strings are parsed; other shapes fail
validation). -/
def pydanticFloat : JValue → Except PyExc ℚ
  | .num q => .ok q
  | .str s =>
    match pyFloatOfChars s.toList with
    | some q => .ok q
    | none => .error (.valueError "validation error: float")
  | _ => .error (.valueError "validation error: float")

/-- Pydantic coercion of a serialized enum value back to `AttackType`
(strings must be a member value). -/
def attackTypeOfValue (s : String) : Except PyExc AttackType :=
  if s = "none" then .ok .NONE
  else if s = "prompt_extraction" then .ok .PROMPT_EXTRACTION
  else if s = "prompt_injection" then .ok .PROMPT_INJECTION
  else if s = "jailbreak" then .ok .JAILBREAK
  else if s = "instruction_override" then .ok .INSTRUCTION_OVERRIDE
  else if s = "roleplay_manipulation" then .ok .ROLEPLAY_MANIPULATION
  else if s = "unknown" then .ok .UNKNOWN
  else .error (.valueError "validation error: enum")

/-- `result.model_dump_json()` as a JSON value. -/
def dumpShield (r : ShieldResult) : JValue :=
  .obj [("is_safe", .bool r.is_safe),
        ("attack_detected", .bool r.attack_detected),
        ("attack_type", .str r.attack_type.value),
        ("confidence", .num r.confidence),
        ("reason", match r.reason with | some s => .str s | none => .null),
        ("flagged", .bool r.flagged),
        ("cached", .bool r.cached)]

/-- `ShieldResult(**data)`: reconstruct a result from its serialized dict,
re-running the pydantic field validation (`is_safe`, `attack_detected`,
`confidence` required; `attack_type`, `reason`, `flagged`, `cached` have
defaults). -/
def loadShield : JValue → Except PyExc ShieldResult
  | .obj kvs =>
    match jGet kvs "is_safe" with
    | none => .error (.valueError "validation error: is_safe required")
    | some isSafeRaw =>
      match pydanticBool isSafeRaw with
      | .error e => .error e
      | .ok is_safe =>
        match jGet kvs "attack_detected" with
        | none => .error (.valueError "validation error: attack_detected required")
        | some adRaw =>
          match pydanticBool adRaw with
          | .error e => .error e
          | .ok attack_detected =>
            match ((match jGet kvs "attack_type" with
                    | none => .ok AttackType.NONE
                    | some (.str s) => attackTypeOfValue s
                    | some _ => .error (.valueError "validation error: enum")) :
                  Except PyExc AttackType) with
            | .error e => .error e
            | .ok attack_type =>
              match jGet kvs "confidence" with
              | none => .error (.valueError "validation error: confidence required")
              | some confRaw =>
                match pydanticFloat confRaw with
                | .error e => .error e
                | .ok confidence =>
                  if 0 ≤ confidence ∧ confidence ≤ 1 then
                    match ((match jGet kvs "reason" with
                            | none => .ok none
                            | some v => pydanticOptStr v) :
                          Except PyExc (Option String)) with
                    | .error e => .error e
                    | .ok reason =>
                      match ((match jGet kvs "flagged" with
                              | none => .ok false
                              | some v => pydanticBool v) :
                            Except PyExc Bool) with
                      | .error e => .error e
                      | .ok flagged =>
                        match ((match jGet kvs "cached" with
                                | none => .ok false
                                | some v => pydanticBool v) :
                              Except PyExc Bool) with
                        | .error e => .error e
                        | .ok cached =>
                          .ok { is_safe := is_safe,
                                attack_detected := attack_detected,
                                attack_type := attack_type,
                                confidence := confidence, reason := reason,
                                flagged := flagged, cached := cached }
                  else .error (.valueError "validation error: confidence bounds")
  | _ => .error (.typeError "argument of type ** must be a mapping")

/-- Python dict assignment `d[k] = v`: update in place if the key exists
(keeping its position), else append. -/
def assocPut (l : List (String × JValue)) (k : String) (v : JValue) :
    List (String × JValue) :=
  if l.any (fun p => p.1 = k) then
    l.map (fun p => if p.1 = k then (k, v) else p)
  else l ++ [(k, v)]

/-- Python dict lookup (first — and by construction only — binding). -/
def assocGet (l : List (String × JValue)) (k : String) : Option JValue :=
  match l.find? (fun p => p.1 = k) with
  | some p => some p.2
  | none => none

/-- `InMemoryCache.set` (cache.py lines 38-46): evict the oldest tenth when
full, then store the serialized result.  The `ttl` argument is accepted and
ignored — the in-memory backend implements no expiry. -/
def inMemSet (maxSize : ℕ) (cache : List (String × JValue)) (key : String)
    (result : ShieldResult) (ttl : ℕ) : List (String × JValue) :=
  let _ := ttl
  let cache := if maxSize ≤ cache.length then cache.drop (maxSize / 10) else cache
  assocPut cache key (dumpShield result)

/-- `InMemoryCache.get` (cache.py lines 30-36): deserialize, re-validate,
set `cached = True`.  A validation failure here propagates (no `except` in
this backend). -/
def inMemGet (cache : List (String × JValue)) (key : String) :
    Except PyExc (Option ShieldResult) :=
  match assocGet cache key with
  | some data =>
    match loadShield data with
    | .ok result => .ok (some { result with cached := true })
    | .error e => .error e
  | none => .ok none

/-- The in-memory backend consulted at an arbitrary number of elapsed
seconds: `InMemoryCache.get` reads no clock, so the elapsed time cannot
influence the result. -/
def inMemGetAt (cache : List (String × JValue)) (elapsedSeconds : ℕ)
    (key : String) : Except PyExc (Option ShieldResult) :=
  let _ := elapsedSeconds
  inMemGet cache key

/-- A Redis store state: key → (serialized value, absolute expiry time). -/
def RedisState := List (String × JValue × ℕ)

/-- Lookup in the Redis store. -/
def redisFind (st : RedisState) (k : String) : Option (JValue × ℕ) :=
  match st.find? (fun p => p.1 = k) with
  | some p => some p.2
  | none => none

/-- `RedisCache.set` (cache.py lines 74-83) issuing
`SETEX shield:<key> ttl <json>`.  Modelled from the spec for the server
side: the redis server (an external collaborator, not under src/) stores
the value with expiry `now + ttl` ("entries expire server-side after `ttl`
seconds"). -/
def redisSet (st : RedisState) (now : ℕ) (key : String)
    (result : ShieldResult) (ttl : ℕ) : RedisState :=
  st.filter (fun p => decide ¬(p.1 = "shield:" ++ key)) ++
    [("shield:" ++ key, dumpShield result, now + ttl)]

/-- `RedisCache.get` (cache.py lines 62-72) at absolute time `now`.
Modelled from the spec for the server side: an entry whose expiry has been
reached is absent.  The client wraps everything in `except Exception`,
returning `None` on any failure, so this backend never raises. -/
def redisGet (st : RedisState) (now : ℕ) (key : String) :
    Option ShieldResult :=
  match redisFind st ("shield:" ++ key) with
  | some (data, expiry) =>
    if now < expiry then
      match loadShield data with
      | .ok result => some { result with cached := true }
      | .error _ => none
    else none
  | none => none

/-! ## Fingerprinting, logging, and the `/check` pipeline (`api.py`) -/

/-- A digest character (lower-case hex). -/
def hexDigit (n : ℕ) : Char :=
  if n < 10 then Char.ofNat (48 + n) else Char.ofNat (87 + (n % 16))

/-- Render a natural as `w` lower-case hex digits (most significant
first). -/
def toHex (w : ℕ) (n : ℕ) : List Char :=
  match w with
  | 0 => []
  | w' + 1 => toHex w' (n / 16) ++ [hexDigit (n % 16)]

/-- `PromptDetector.hash_prompt` (detector.py lines 227-230):
`sha256(prompt)[:16]`.  Modelled from the spec: `hashlib.sha256` is an
external library routine (not under src/); the spec requires only a
deterministic fixed-width digest used as a cache key, so a deterministic
64-bit polynomial digest rendered as 16 hex characters stands in for the
truncated SHA-256.  No claim depends on digest values beyond determinism
and fixed width. -/
def hash_prompt (prompt : String) : String :=
  String.mk (toHex 16
    (prompt.toList.foldl (fun a c => (a * 1099511628211 + c.toNat) % 2 ^ 64) 14695981039346656037))

/-- `PromptDetector.create_log_entry` (detector.py lines 232-242), with
`datetime.utcnow().isoformat()` passed in as `now`. -/
def create_log_entry (now : String) (prompt : String) (result : ShieldResult) :
    AttackLog :=
  { timestamp := now, prompt_hash := hash_prompt prompt,
    prompt_preview := prompt.take 200, attack_type := result.attack_type,
    confidence := result.confidence, reason := result.reason }

/-- The mutable service state behind the `/check` endpoint: the verdict
cache (in-memory backend) and the attack store's rows. -/
structure AppState where
  cache : List (String × JValue)
  attacks : List AttackLog

/-- The `check_prompt` handler (api.py lines 122-153), with the oracle
outcome and the clock passed in: cache lookup by fingerprint, on a hit
return the cached verdict untouched; on a miss analyze, cache the result,
and append one attack-log record iff `result.attack_detected`. -/
def check_prompt (maxSize : ℕ) (st : AppState) (prompt : String)
    (oracle : Except String String) (cache_ttl : ℕ) (now : String) :
    Except PyExc (ShieldResult × AppState) :=
  let prompt_hash := hash_prompt prompt
  match inMemGet st.cache prompt_hash with
  | .error e => .error e
  | .ok (some cached_result) => .ok (cached_result, st)
  | .ok none =>
    let result := analyze oracle
    let cache' := inMemSet maxSize st.cache prompt_hash result cache_ttl
    let attacks' :=
      if result.attack_detected then
        st.attacks ++ [create_log_entry now prompt result]
      else st.attacks
    .ok (result, { cache := cache', attacks := attacks' })

/-! ## The attack store (`storage.py`) -/

/-- A row of the `attacks` table (storage.py lines 21-31). -/
structure AttackRow where
  timestamp : String
  prompt_hash : String
  prompt_preview : String
  attack_type : String
  confidence : ℚ
  reason : Option String
deriving DecidableEq, Repr

/-- Lexicographic order on character lists: SQLite's BINARY collation for
`timestamp >= ?` on TEXT columns (agreeing with byte order on the ASCII
ISO-8601 timestamps the program stores). -/
def lexLe : List Char → List Char → Bool
  | [], _ => true
  | _ :: _, [] => false
  | a :: as, b :: bs => if a = b then lexLe as bs else decide (a < b)

/-- `a <= b` for SQLite TEXT comparison. -/
def strLe (a b : String) : Bool := lexLe a.toList b.toList

/-- A row of the `get_repeat_offenders` result set. -/
structure OffenderGroup where
  prompt_hash : String
  prompt_preview : String
  count : ℕ
  max_confidence : ℚ
deriving DecidableEq, Repr

/-- `MAX(confidence)` over a group (0 for an empty list, which grouping
never produces). -/
def maxConf : List ℚ → ℚ
  | [] => 0
  | [q] => q
  | q :: qs => if maxConf qs ≤ q then q else maxConf qs

/-- The in-window rows for one fingerprint (SQL
`WHERE timestamp >= since AND prompt_hash = h`; SQLite compares the ISO
timestamp strings lexicographically). -/
def winRows (rows : List AttackRow) (since : String) (h : String) :
    List AttackRow :=
  (rows.filter (fun r => strLe since r.timestamp)).filter
    (fun r => r.prompt_hash = h)

/-- One output row of the `get_repeat_offenders` query for fingerprint
`h`: the group's fingerprint, a preview, `COUNT(*)` and
`MAX(confidence)`.  The non-aggregated `prompt_preview` column is taken
from the group's first row (SQLite leaves its choice of row unspecified;
no claim constrains it). -/
def offGroup (rows : List AttackRow) (since : String) (h : String) :
    OffenderGroup :=
  let rs := winRows rows since h
  { prompt_hash := h,
    prompt_preview := (rs.head?.map (fun r => r.prompt_preview)).getD "",
    count := rs.length,
    max_confidence := maxConf (rs.map (fun r => r.confidence)) }

/-- `AttackStorage.get_repeat_offenders` (storage.py lines 127-145), with
`since = (utcnow() - timedelta(days)).isoformat()` passed in (the datetime
arithmetic is standard-library code): group in-window rows by
`prompt_hash`, keep groups with `count >= min_count`, order by count
descending. -/
def get_repeat_offenders (rows : List AttackRow) (since : String)
    (min_count : ℕ) : List OffenderGroup :=
  let win := rows.filter (fun r => strLe since r.timestamp)
  let hashes := (win.map (fun r => r.prompt_hash)).dedup
  let groups := hashes.map (offGroup rows since)
  let filtered := groups.filter (fun g => min_count ≤ g.count)
  filtered.insertionSort (fun a b => b.count ≤ a.count)

/-! ## Statement helpers -/

instance {ε α : Type} [DecidableEq ε] [DecidableEq α] :
    DecidableEq (Except ε α) := fun x y =>
  match x, y with
  | .ok a, .ok b =>
    if h : a = b then isTrue (by rw [h]) else isFalse (by simp [h])
  | .error e, .error f =>
    if h : e = f then isTrue (by rw [h]) else isFalse (by simp [h])
  | .ok _, .error _ => isFalse (by simp)
  | .error _, .ok _ => isFalse (by simp)

/-- A well-formed oracle classification payload: boolean `attack`, string
`type`, numeric `confidence`, string `reason`. -/
def mkRecordJ (a : Bool) (c : ℚ) (t rn : String) : JValue :=
  .obj [("attack", .bool a), ("type", .str t),
        ("confidence", .num c), ("reason", .str rn)]

/-- A payload whose `confidence` field is absent. -/
def mkRecordNoConf (a : Bool) (t rn : String) : JValue :=
  .obj [("attack", .bool a), ("type", .str t), ("reason", .str rn)]

/-- A payload whose `confidence` field is a string. -/
def mkRecordConfStr (a : Bool) (t rn confStr : String) : JValue :=
  .obj [("attack", .bool a), ("type", .str t),
        ("confidence", .str confStr), ("reason", .str rn)]

/-- Sample attack-store rows for the repeat-offender scenario: four
in-window rows of fingerprint "A", two of fingerprint "B", one
out-of-window row of "A". -/
def sampleAttackRows : List AttackRow :=
  [{ timestamp := "6", prompt_hash := "A", prompt_preview := "pa",
     attack_type := "jailbreak", confidence := mkRat 1 2, reason := none },
   { timestamp := "7", prompt_hash := "B", prompt_preview := "pb",
     attack_type := "none", confidence := mkRat 9 10, reason := none },
   { timestamp := "8", prompt_hash := "A", prompt_preview := "pa",
     attack_type := "jailbreak", confidence := mkRat 7 10, reason := none },
   { timestamp := "9", prompt_hash := "B", prompt_preview := "pb",
     attack_type := "none", confidence := mkRat 8 10, reason := none },
   { timestamp := "7", prompt_hash := "A", prompt_preview := "pa",
     attack_type := "jailbreak", confidence := mkRat 3 10, reason := none },
   { timestamp := "1", prompt_hash := "A", prompt_preview := "pa",
     attack_type := "jailbreak", confidence := mkRat 1 1, reason := none },
   { timestamp := "9", prompt_hash := "A", prompt_preview := "pa",
     attack_type := "jailbreak", confidence := mkRat 1 5, reason := none }]

/-- A payload wrapped in a fenced code block with the `json` language tag. -/
def wrapJson (p : String) : String := "```json\n" ++ p ++ "\n```"

/-- A payload wrapped in a fenced code block without a language tag. -/
def wrapPlain (p : String) : String := "```\n" ++ p ++ "\n```"

end PromptShield

namespace PromptShield

/-! ## Theorems -/

/-- Claim C2: for every input, if the oracle invocation raises any
exception (timeouts included — `analyze` treats every exception alike),
`analyze` does not propagate it and returns the fail-open verdict
`is_safe = true`, `attack_detected = false`, `flagged = true` with the
explanation `"Analysis error: <cause>"` (the code capitalizes the first
word of the claimed `analysis error: <cause>` form). -/
theorem analyze_fail_open (cause : String) :
    analyze (Except.error cause) =
      { is_safe := true, attack_detected := false,
        attack_type := AttackType.UNKNOWN, confidence := 0,
        reason := some ("Analysis error: " ++ cause),
        flagged := true, cached := false } := rfl

/-- Claim C3 (failing input): the response parser is NOT total.  On the
JSON array payload `[1, 2, 3]`, `data.get("attack", False)` raises
`AttributeError`, which the `except (json.JSONDecodeError, KeyError,
ValueError)` clause does not catch, so `_parse_response` raises instead of
returning a degraded record. -/
theorem parse_response_raises_on_array :
    parse_response "[1, 2, 3]" =
      Except.error (PyExc.attributeError "list object has no attribute get") := by
  rfl

/-- Claim C4 (counterexample): a payload missing the `confidence` field is
NOT treated as a parse failure.  `data.get("confidence", 0.0)` silently
defaults to `0.0`, so `{"attack": true, "type": "jailbreak"}` parses with
`attack_detected = true` and `category = jailbreak` — not the claimed
`attack = false, category = unknown`. -/
theorem absent_confidence_not_parse_failure :
    parse_response "\x7b\"attack\": true, \"type\": \"jailbreak\"\x7d" =
      Except.ok { is_safe := true, attack_detected := true,
                  attack_type := AttackType.JAILBREAK, confidence := 0,
                  reason := some "", flagged := false, cached := false } ∧
    AttackType.JAILBREAK ≠ AttackType.UNKNOWN := by
  exact ⟨by decide, by decide⟩

/-- Claim C5 (counterexample): fenced wrapping is NOT transparent for every
JSON payload.  For a payload whose `reason` string itself contains the
fence marker ```` ``` ````, `response.split("```")[1]` truncates the
payload at the embedded marker, so the wrapped form parses to the degraded
parse-error record while the unwrapped form parses to the real record. -/
theorem fence_wrap_not_transparent :
    parse_response
        (wrapJson "\x7b\"attack\": true, \"type\": \"jailbreak\", \"confidence\": 0.9, \"reason\": \"x```y\"\x7d") ≠
      parse_response
        "\x7b\"attack\": true, \"type\": \"jailbreak\", \"confidence\": 0.9, \"reason\": \"x```y\"\x7d" := by
  decide

/-- Claim C7 (counterexample): the in-memory backend never expires an
entry.  After `set(f, v, ttl=1)`, a `get(f)` performed 1000 seconds later
(`InMemoryCache.get` reads no clock, so elapsed time cannot change it)
still returns the verdict instead of the claimed absent. -/
theorem inmemory_entry_survives_ttl :
    inMemGetAt
        (inMemSet 10000 [] "f"
          { is_safe := false, attack_detected := true,
            attack_type := AttackType.JAILBREAK, confidence := mkRat 9 10,
            reason := some "r", flagged := false, cached := false } 1)
        1000 "f" =
      Except.ok (some
        { is_safe := false, attack_detected := true,
          attack_type := AttackType.JAILBREAK, confidence := mkRat 9 10,
          reason := some "r", flagged := false, cached := true }) ∧
    Except.ok (some
        { is_safe := false, attack_detected := true,
          attack_type := AttackType.JAILBREAK, confidence := mkRat 9 10,
          reason := some "r", flagged := false, cached := true }) ≠
      (Except.ok none : Except PyExc (Option ShieldResult)) := by
  exact ⟨by decide, by decide⟩

/-- The parse of a well-formed classification payload (boolean `attack`,
numeric in-range `confidence`): the decision logic of detector.py
lines 203-214 in closed form. -/
theorem parseBody_record (a : Bool) (c : ℚ) (t rn : String)
    (h0 : 0 ≤ c) (h1 : c ≤ 1) :
    parseBody (mkRecordJ a c t rn) =
      Except.ok
        { is_safe := !a || decide (c < mkRat 8 10), attack_detected := a,
          attack_type := typeMap t, confidence := c, reason := some rn,
          flagged := a && decide (mkRat 4 10 ≤ c ∧ c < mkRat 8 10),
          cached := false } := by
  cases a <;>
    simp [mkRecordJ, parseBody, jGetD, pyFloat, typeMapGet, pydanticBool,
      pydanticOptStr, pyTruthy, h0, h1]

/-- `mkRat` form of the 0.8 block threshold. -/
theorem mkRat_8_10 : mkRat 8 10 = (8 : ℚ)/10 := by
  norm_num [Rat.mkRat_eq_div]

/-- `mkRat` form of the 0.4 flag threshold. -/
theorem mkRat_4_10 : mkRat 4 10 = (4 : ℚ)/10 := by
  norm_num [Rat.mkRat_eq_div]

/-- Claim C1: the three-band decision structure.  For a classification
record with boolean `attack` and in-range numeric confidence, the verdict
has `safe = false` exactly when `attack ∧ confidence ≥ 0.8`;
`flagged ∧ safe` exactly when `attack ∧ 0.4 ≤ confidence < 0.8`;
`safe ∧ ¬flagged` when `attack ∧ confidence < 0.4`; and an `attack = false`
record is always `safe = true, attack_detected = false, flagged = false`
regardless of confidence. -/
theorem decision_bands (a : Bool) (c : ℚ) (t rn : String)
    (h0 : 0 ≤ c) (h1 : c ≤ 1) :
    ∃ r, parseBody (mkRecordJ a c t rn) = Except.ok r ∧
      (a = true →
        ((r.is_safe = false ↔ (8 : ℚ)/10 ≤ c) ∧
          ((r.flagged = true ∧ r.is_safe = true) ↔
            ((4 : ℚ)/10 ≤ c ∧ c < (8 : ℚ)/10)) ∧
          (c < (4 : ℚ)/10 → r.is_safe = true ∧ r.flagged = false))) ∧
      (a = false →
        r.is_safe = true ∧ r.attack_detected = false ∧ r.flagged = false) := by
  refine ⟨_, parseBody_record a c t rn h0 h1, ?_, ?_⟩
  all_goals
    rintro rfl
    simp only [mkRat_8_10, mkRat_4_10]
    by_cases hb : c < (8 : ℚ)/10 <;>
      by_cases hf : (4 : ℚ)/10 ≤ c <;>
      simp [hb, hf, not_lt.mp, le_of_not_lt] <;>
      linarith

/-- Witness for `decision_bands` at the exact block boundary
`attack = true, confidence = 0.8`. -/
theorem decision_bands_witness :
    ∃ r, parseBody (mkRecordJ true (mkRat 8 10) "jailbreak" "x") =
        Except.ok r ∧
      (true = true →
        ((r.is_safe = false ↔ (8 : ℚ)/10 ≤ mkRat 8 10) ∧
          ((r.flagged = true ∧ r.is_safe = true) ↔
            ((4 : ℚ)/10 ≤ mkRat 8 10 ∧ mkRat 8 10 < (8 : ℚ)/10)) ∧
          (mkRat 8 10 < (4 : ℚ)/10 →
            r.is_safe = true ∧ r.flagged = false))) ∧
      (true = false →
        r.is_safe = true ∧ r.attack_detected = false ∧ r.flagged = false) :=
  decision_bands true (mkRat 8 10) "jailbreak" "x"
    (by rw [mkRat_8_10]; norm_num) (by rw [mkRat_8_10]; norm_num)

/-- Any record produced by a successful run of the parse body satisfies
`flagged → is_safe`: a flag is only ever set in the mid-confidence band,
where `is_safe` is true. -/
theorem parseBody_flag_safe (j : JValue) (r : ShieldResult)
    (h : parseBody j = Except.ok r) : r.flagged = true → r.is_safe = true := by
  cases j with
  | null => simp [parseBody] at h
  | bool b => simp [parseBody] at h
  | num q => simp [parseBody] at h
  | str s => simp [parseBody] at h
  | arr xs => simp [parseBody] at h
  | obj kvs =>
    simp only [parseBody] at h
    cases hc : pyFloat (jGetD kvs "confidence" (JValue.num 0)) with
    | error e => simp only [hc] at h; exact Except.noConfusion h
    | ok confidence =>
      simp only [hc] at h
      cases htm : typeMapGet (jGetD kvs "type" (JValue.str "none")) with
      | error e => simp only [htm] at h; exact Except.noConfusion h
      | ok attack_type =>
        simp only [htm] at h
        cases had : pydanticBool (jGetD kvs "attack" (JValue.bool false)) with
        | error e => simp only [had] at h; exact Except.noConfusion h
        | ok attack_detected =>
          simp only [had] at h
          by_cases hbnd : 0 ≤ confidence ∧ confidence ≤ 1
          · rw [if_pos hbnd] at h
            cases hrs : pydanticOptStr (jGetD kvs "reason" (JValue.str "")) with
            | error e => simp only [hrs] at h; exact Except.noConfusion h
            | ok reason =>
              simp only [hrs] at h
              by_cases ht : pyTruthy (jGetD kvs "attack" (JValue.bool false))
              · rw [if_pos ht] at h
                simp only [pydanticBool, Except.ok.injEq] at h
                subst h
                intro hfl
                simp only [Bool.or_eq_true, Bool.not_eq_true]
                right
                simp only [decide_eq_true_eq] at hfl ⊢
                exact hfl.2
              · rw [if_neg ht] at h
                simp only [had, Except.ok.injEq] at h
                subst h
                intro _
                simp [ht]
          · rw [if_neg hbnd] at h
            exact Except.noConfusion h

/-- Every record `_parse_response` returns satisfies `flagged → is_safe`
(both the successfully parsed records and the degraded parse-failure
record). -/
theorem parse_response_flag_safe (s : String) (r : ShieldResult)
    (h : parse_response s = Except.ok r) : r.flagged = true → r.is_safe = true := by
  unfold parse_response handleParse at h
  cases hl : json_loads (stripResponse s) with
  | error e =>
    simp only [hl, Except.bind] at h
    by_cases hcg : e.caught
    · rw [if_pos hcg] at h
      obtain rfl := Except.ok.inj h
      intro _; rfl
    · rw [if_neg (by simpa using hcg)] at h
      exact Except.noConfusion h
  | ok data =>
    simp only [hl, Except.bind] at h
    cases hp : parseBody data with
    | ok r0 =>
      rw [hp] at h
      obtain rfl := Except.ok.inj h
      exact parseBody_flag_safe data r0 hp
    | error e =>
      simp only [hp] at h
      by_cases hcg : e.caught
      · rw [if_pos hcg] at h
        obtain rfl := Except.ok.inj h
        intro _; rfl
      · rw [if_neg (by simpa using hcg)] at h
        exact Except.noConfusion h

/-- Every record `analyze` returns satisfies `flagged → is_safe`. -/
theorem analyze_flag_safe (o : Except String String) :
    (analyze o).flagged = true → (analyze o).is_safe = true := by
  cases o with
  | error cause => intro _; rfl
  | ok s =>
    cases hp : parse_response s with
    | ok r =>
      simp only [analyze, hp]
      exact parse_response_flag_safe s r hp
    | error e =>
      simp only [analyze, hp]
      intro _; rfl

/-- Claim C10: every result the detector produces — successful parse,
parse failure, or oracle failure — satisfies `flagged = true → is_safe =
true`, and `should_block` and `should_flag` are never simultaneously true:
a blocking verdict is never also flagged for review. -/
theorem detector_flagged_implies_safe (oracle : Except String String)
    (s : String) (r : ShieldResult)
    (h : analyze oracle = r ∨ parse_response s = Except.ok r) :
    (r.flagged = true → r.is_safe = true) ∧
    ¬(r.should_block = true ∧ r.should_flag = true) := by
  constructor
  · rcases h with rfl | hp
    · exact analyze_flag_safe oracle
    · exact parse_response_flag_safe s r hp
  · rintro ⟨hb, hf⟩
    simp only [ShieldResult.should_block, ShieldResult.should_flag,
      Bool.and_eq_true, decide_eq_true_eq] at hb hf
    linarith [hb.2, hf.2.2]

/-- Witness for `detector_flagged_implies_safe` on the oracle-failure
path. -/
theorem detector_flagged_implies_safe_witness :
    (analyze (Except.error "timeout") = analysisErrorRecord "timeout" ∨
      parse_response "" = Except.ok (analysisErrorRecord "timeout")) ∧
    (((analysisErrorRecord "timeout").flagged = true →
        (analysisErrorRecord "timeout").is_safe = true) ∧
      ¬((analysisErrorRecord "timeout").should_block = true ∧
        (analysisErrorRecord "timeout").should_flag = true)) :=
  ⟨Or.inl rfl,
    detector_flagged_implies_safe (Except.error "timeout") ""
      (analysisErrorRecord "timeout") (Or.inl rfl)⟩

/-- Claim C4 (amended): a payload whose `confidence` field is a
non-numeric string yields the parse-failure record (`attack = false`,
`category = unknown`, `confidence = 0`); but a payload with an absent
`confidence` field is parsed normally — confidence defaults to `0.0` and
the category still follows the `type` field. -/
theorem confidence_field_handling (a : Bool) (t rn s : String)
    (hs : pyFloatOfChars s.toList = none) :
    parseBody (mkRecordNoConf a t rn) =
      Except.ok { is_safe := true, attack_detected := a,
                  attack_type := typeMap t, confidence := 0,
                  reason := some rn, flagged := false, cached := false } ∧
    handleParse (parseBody (mkRecordConfStr a t rn s)) =
      Except.ok (parseErrorRecord
        (PyExc.valueError "could not convert string to float")) := by
  constructor
  · cases a <;>
      simp [mkRecordNoConf, parseBody, jGetD, pyFloat, typeMapGet,
        pydanticBool, pydanticOptStr, pyTruthy, mkRat_8_10, mkRat_4_10]
  · have hs2 : pyFloatOfChars s.data = none := hs
    simp [mkRecordConfStr, parseBody, jGetD, pyFloat, hs2, handleParse,
      PyExc.caught]

/-- Witness for `confidence_field_handling` with `type = "jailbreak"` and
the unparsable confidence string `"abc"`. -/
theorem confidence_field_handling_witness :
    pyFloatOfChars "abc".toList = none ∧
    (parseBody (mkRecordNoConf true "jailbreak" "x") =
      Except.ok { is_safe := true, attack_detected := true,
                  attack_type := typeMap "jailbreak", confidence := 0,
                  reason := some "x", flagged := false, cached := false } ∧
    handleParse (parseBody (mkRecordConfStr true "jailbreak" "x" "abc")) =
      Except.ok (parseErrorRecord
        (PyExc.valueError "could not convert string to float"))) :=
  ⟨by decide, confidence_field_handling true "jailbreak" "x" "abc" (by decide)⟩

/-- `find?` skips a prefix on which the predicate is false. -/
theorem find?_append_eq {α : Type} (p : α → Bool) (l1 l2 : List α)
    (h : ∀ a ∈ l1, p a = false) :
    List.find? p (l1 ++ l2) = List.find? p l2 := by
  induction l1 with
  | nil => simp
  | cons a l ih =>
    rw [List.cons_append, List.find?_cons_of_neg, ih]
    · intro b hb; exact h b (List.mem_cons_of_mem a hb)
    · simp [h a (List.mem_cons_self a l)]

/-- `find?` over a keyed update-in-place map. -/
theorem find?_map_put (l : List (String × JValue)) (k : String) (x : JValue) :
    List.find? (fun p => p.1 = k)
        (l.map (fun p => if p.1 = k then (k, x) else p)) =
      if l.any (fun p => p.1 = k) then some (k, x) else none := by
  induction l with
  | nil => simp
  | cons p l ih =>
    by_cases hp : p.1 = k
    · simp [hp]
    · have h2 : (decide (p.1 = k) || l.any fun p => decide (p.1 = k)) =
          (l.any fun p => decide (p.1 = k)) := by simp [hp]
      simp [hp, ih]
      rw [h2]

/-- Looking up the key just written by a Python dict assignment returns the
written value. -/
theorem assocGet_assocPut (l : List (String × JValue)) (k : String)
    (x : JValue) : assocGet (assocPut l k x) k = some x := by
  unfold assocPut assocGet
  by_cases hany : l.any (fun p => p.1 = k)
  · rw [if_pos hany, find?_map_put, if_pos hany]
  · rw [if_neg hany, find?_append_eq]
    · simp
    · intro a ha
      by_contra hc
      exact hany (List.any_eq_true.mpr ⟨a, ha, by simpa using hc⟩)

/-- The entry just written by `SETEX` is found under its prefixed key. -/
theorem redisFind_redisSet (st : RedisState) (now : ℕ) (key : String)
    (v : ShieldResult) (ttl : ℕ) :
    redisFind (redisSet st now key v ttl) ("shield:" ++ key) =
      some (dumpShield v, now + ttl) := by
  unfold redisSet redisFind
  rw [find?_append_eq]
  · simp
  · intro a ha
    simp only [List.mem_filter, decide_eq_true_eq] at ha
    simpa using ha.2

/-- Serialize–deserialize round trip: `ShieldResult(**json.loads(
r.model_dump_json()))` re-validates and reproduces every field, provided
the stored confidence satisfies the pydantic bound (true of every
constructed result). -/
theorem loadShield_dumpShield (r : ShieldResult)
    (h0 : 0 ≤ r.confidence) (h1 : r.confidence ≤ 1) :
    loadShield (dumpShield r) = Except.ok r := by
  obtain ⟨sf, ad, at_, cf, rs, fl, ch⟩ := r
  simp only at h0 h1
  cases at_ <;> cases rs <;>
    simp [dumpShield, loadShield, jGet, AttackType.value, attackTypeOfValue,
      pydanticBool, pydanticOptStr, pydanticFloat, h0, h1]

/-- Claim C6: in both backends, a `get` following `set(f, v, ttl)` (before
expiry, for the networked backend) returns a verdict equal to `v` in every
field except `cached`, which is set to true — the cache mutates nothing
else. -/
theorem cache_roundtrip (maxSize : ℕ) (cache : List (String × JValue))
    (st : RedisState) (f : String) (v : ShieldResult) (ttl now t : ℕ)
    (h0 : 0 ≤ v.confidence) (h1 : v.confidence ≤ 1)
    (hbefore : t < now + ttl) :
    inMemGet (inMemSet maxSize cache f v ttl) f =
      Except.ok (some { v with cached := true }) ∧
    redisGet (redisSet st now f v ttl) t f =
      some { v with cached := true } := by
  constructor
  · unfold inMemSet inMemGet
    rw [assocGet_assocPut]
    simp [loadShield_dumpShield v h0 h1]
  · unfold redisGet
    rw [redisFind_redisSet]
    simp [hbefore, loadShield_dumpShield v h0 h1]

/-- Witness for `cache_roundtrip` with a concrete verdict, `ttl = 60`,
written at 100 and read at 159. -/
theorem cache_roundtrip_witness :
    (0 : ℚ) ≤ mkRat 9 10 ∧ mkRat 9 10 ≤ 1 ∧ 159 < 100 + 60 ∧
    (inMemGet
        (inMemSet 10000 [] "f"
          { is_safe := false, attack_detected := true,
            attack_type := AttackType.JAILBREAK, confidence := mkRat 9 10,
            reason := some "r", flagged := false, cached := false } 60) "f" =
      Except.ok (some
        { is_safe := false, attack_detected := true,
          attack_type := AttackType.JAILBREAK, confidence := mkRat 9 10,
          reason := some "r", flagged := false, cached := true }) ∧
    redisGet
        (redisSet [] 100 "f"
          { is_safe := false, attack_detected := true,
            attack_type := AttackType.JAILBREAK, confidence := mkRat 9 10,
            reason := some "r", flagged := false, cached := false } 60) 159 "f" =
      some
        { is_safe := false, attack_detected := true,
          attack_type := AttackType.JAILBREAK, confidence := mkRat 9 10,
          reason := some "r", flagged := false, cached := true }) :=
  ⟨by norm_num [Rat.mkRat_eq_div], by norm_num [Rat.mkRat_eq_div], by norm_num,
    cache_roundtrip 10000 [] [] "f" _ 60 100 159
      (by norm_num [Rat.mkRat_eq_div]) (by norm_num [Rat.mkRat_eq_div])
      (by norm_num)⟩

/-- Claim C7 (amended): in the networked backend, a `get` at or after the
expiry instant returns absent (the server-side `SETEX` expiry, modelled
from the spec).  The in-memory backend has no expiry at all — see the
counterexample theorem. -/
theorem redis_entry_expires (st : RedisState) (now ttl t : ℕ) (f : String)
    (v : ShieldResult) (h : now + ttl ≤ t) :
    redisGet (redisSet st now f v ttl) t f = none := by
  unfold redisGet
  rw [redisFind_redisSet]
  simp [not_lt.mpr h]

/-- Witness for `redis_entry_expires`: entry written at 100 with `ttl = 60`
is absent at 160. -/
theorem redis_entry_expires_witness :
    100 + 60 ≤ 160 ∧
    redisGet
        (redisSet [] 100 "f"
          { is_safe := false, attack_detected := true,
            attack_type := AttackType.JAILBREAK, confidence := mkRat 9 10,
            reason := some "r", flagged := false, cached := false } 60)
        160 "f" = none :=
  ⟨by norm_num,
    redis_entry_expires [] 100 60 160 "f" _ (by norm_num)⟩

/-- Claim C8: the `/check` pipeline writes the attack store exactly once
per execution whose computed verdict has `attack_detected = true`, and
never on a cache hit — a hit returns the cached verdict with no store
write, even if that verdict has `attack_detected = true`. -/
theorem attack_logging (maxSize : ℕ) (st : AppState) (prompt : String)
    (oracle : Except String String) (ttl : ℕ) (now : String) :
    (∀ rc, inMemGet st.cache (hash_prompt prompt) = Except.ok (some rc) →
      check_prompt maxSize st prompt oracle ttl now = Except.ok (rc, st)) ∧
    (inMemGet st.cache (hash_prompt prompt) = Except.ok none →
      check_prompt maxSize st prompt oracle ttl now =
        Except.ok (analyze oracle,
          { cache := inMemSet maxSize st.cache (hash_prompt prompt)
              (analyze oracle) ttl,
            attacks :=
              if (analyze oracle).attack_detected then
                st.attacks ++ [create_log_entry now prompt (analyze oracle)]
              else st.attacks })) := by
  constructor
  · intro rc h
    simp [check_prompt, h]
  · intro h
    simp [check_prompt, h]

/-- Witness for `attack_logging`: an empty cache (a miss) with an oracle
verdict that detects a jailbreak, appending exactly one log record. -/
theorem attack_logging_witness :
    inMemGet (AppState.mk [] []).cache (hash_prompt "attack me") =
      Except.ok none ∧
    check_prompt 10000 (AppState.mk [] []) "attack me"
        (Except.ok "\x7b\"attack\": true, \"type\": \"jailbreak\", \"confidence\": 0.9, \"reason\": \"r\"\x7d")
        3600 "2026-01-01T00:00:00" =
      Except.ok
        (analyze (Except.ok "\x7b\"attack\": true, \"type\": \"jailbreak\", \"confidence\": 0.9, \"reason\": \"r\"\x7d"),
          { cache := inMemSet 10000 [] (hash_prompt "attack me")
              (analyze (Except.ok "\x7b\"attack\": true, \"type\": \"jailbreak\", \"confidence\": 0.9, \"reason\": \"r\"\x7d"))
              3600,
            attacks :=
              if (analyze (Except.ok "\x7b\"attack\": true, \"type\": \"jailbreak\", \"confidence\": 0.9, \"reason\": \"r\"\x7d")).attack_detected then
                [] ++ [create_log_entry "2026-01-01T00:00:00" "attack me"
                  (analyze (Except.ok "\x7b\"attack\": true, \"type\": \"jailbreak\", \"confidence\": 0.9, \"reason\": \"r\"\x7d"))]
              else [] }) :=
  ⟨by decide,
    (attack_logging 10000 (AppState.mk [] []) "attack me"
        (Except.ok "\x7b\"attack\": true, \"type\": \"jailbreak\", \"confidence\": 0.9, \"reason\": \"r\"\x7d")
        3600 "2026-01-01T00:00:00").2 (by decide)⟩

/-- Claim C9: `repeat_offenders(min_count, days)` returns the groups of
in-window records grouped by fingerprint — one group per fingerprint with
at least `min_count` in-window records (sound, complete and
duplicate-free), each carrying that fingerprint's record count and maximum
confidence, ordered by count descending. -/
theorem repeat_offenders_correct (rows : List AttackRow) (since : String)
    (min_count : ℕ) :
    List.Sorted (fun a b => b.count ≤ a.count)
        (get_repeat_offenders rows since min_count) ∧
    ((get_repeat_offenders rows since min_count).map
        (fun g => g.prompt_hash)).Nodup ∧
    (∀ g ∈ get_repeat_offenders rows since min_count,
        min_count ≤ g.count ∧
        g.count = (winRows rows since g.prompt_hash).length ∧
        g.max_confidence =
          maxConf ((winRows rows since g.prompt_hash).map
            (fun r => r.confidence))) ∧
    (∀ h, 0 < (winRows rows since h).length →
        min_count ≤ (winRows rows since h).length →
        ∃ g ∈ get_repeat_offenders rows since min_count,
          g.prompt_hash = h) := by
  haveI ht1 : IsTotal OffenderGroup (fun a b => b.count ≤ a.count) :=
    ⟨fun a b => Nat.le_total b.count a.count⟩
  haveI ht2 : IsTrans OffenderGroup (fun a b => b.count ≤ a.count) :=
    ⟨fun _ _ _ hab hbc => le_trans hbc hab⟩
  have hperm : (get_repeat_offenders rows since min_count).Perm
      ((((rows.filter (fun r => strLe since r.timestamp)).map
          (fun r => r.prompt_hash)).dedup.map (offGroup rows since)).filter
        (fun g => min_count ≤ g.count)) :=
    List.perm_insertionSort _ _
  refine ⟨List.sorted_insertionSort _ _, ?_, ?_, ?_⟩
  · rw [List.Perm.nodup_iff (List.Perm.map _ hperm)]
    refine List.Sublist.nodup
      ((List.filter_sublist _).map (fun g : OffenderGroup => g.prompt_hash)) ?_
    have hmm : ((((rows.filter (fun r => strLe since r.timestamp)).map
          (fun r => r.prompt_hash)).dedup.map (offGroup rows since)).map
        (fun g => g.prompt_hash)) =
        ((rows.filter (fun r => strLe since r.timestamp)).map
          (fun r => r.prompt_hash)).dedup := by
      rw [List.map_map]
      exact List.map_id _
    rw [hmm]
    exact List.nodup_dedup _
  · intro g hg
    have hg2 := hperm.subset hg
    obtain ⟨hgroups, hcnt⟩ := List.mem_filter.mp hg2
    obtain ⟨h, _, rfl⟩ := List.mem_map.mp hgroups
    exact ⟨by simpa using hcnt, rfl, rfl⟩
  · intro h hpos hmc
    obtain ⟨r, hr⟩ := List.exists_mem_of_length_pos hpos
    have hr2 := List.mem_filter.mp hr
    have hmem : h ∈ ((rows.filter (fun r => strLe since r.timestamp)).map
        (fun r => r.prompt_hash)).dedup := by
      rw [List.mem_dedup]
      exact List.mem_map.mpr ⟨r, hr2.1, by simpa using hr2.2⟩
    refine ⟨offGroup rows since h, ?_, rfl⟩
    exact hperm.symm.subset
      (List.mem_filter.mpr ⟨List.mem_map_of_mem _ hmem, by simpa using hmc⟩)

/-- Witness for `repeat_offenders_correct` on the 4-vs-2 records scenario:
`repeat_offenders(min_count=3)` over `sampleAttackRows` returns exactly one
group — fingerprint "A" with `count = 4` and `MAX(confidence) = 0.7`. -/
theorem repeat_offenders_witness :
    0 < (winRows sampleAttackRows "5" "A").length ∧
    3 ≤ (winRows sampleAttackRows "5" "A").length ∧
    (∃ g ∈ get_repeat_offenders sampleAttackRows "5" 3,
      g.prompt_hash = "A") ∧
    get_repeat_offenders sampleAttackRows "5" 3 =
      [{ prompt_hash := "A", prompt_preview := "pa", count := 4,
         max_confidence := mkRat 7 10 }] :=
  ⟨by decide, by decide,
    ((repeat_offenders_correct sampleAttackRows "5" 3).2.2.2 "A"
      (by decide) (by decide)),
    by decide⟩

/-- `dropWhile` is idempotent. -/
theorem dropWhile_idem {α : Type} (p : α → Bool) (l : List α) :
    List.dropWhile p (List.dropWhile p l) = List.dropWhile p l := by
  induction l with
  | nil => rfl
  | cons a l ih =>
    rw [List.dropWhile_cons]
    by_cases ha : p a = true
    · rw [if_pos ha]; exact ih
    · rw [if_neg ha, List.dropWhile_cons, if_neg ha]

/-- `dropTrailing` produces a prefix. -/
theorem dropTrailing_prefix_self (l : List Char) : dropTrailing l <+: l := by
  unfold dropTrailing
  rw [← List.reverse_suffix, List.reverse_reverse]
  exact List.dropWhile_suffix isPyWs

/-- `stripChars` produces an infix. -/
theorem stripChars_infix_self (l : List Char) : stripChars l <:+: l :=
  ((dropTrailing_prefix_self (dropLeading l)).isInfix).trans
    ((List.dropWhile_suffix isPyWs).isInfix)

/-- `stripChars` leaves a list alone when neither end is whitespace. -/
theorem stripChars_eq_self (x y : Char) (l : List Char)
    (hx : isPyWs x = false) (hy : isPyWs y = false) :
    stripChars (x :: (l ++ [y])) = x :: (l ++ [y]) := by
  unfold stripChars dropLeading dropTrailing
  rw [List.dropWhile_cons, if_neg (by simp [hx])]
  rw [show (x :: (l ++ [y])).reverse = y :: (l.reverse ++ [x]) by simp]
  rw [List.dropWhile_cons, if_neg (by simp [hy])]
  simp

/-- Appending trailing whitespace does not change `dropTrailing`. -/
theorem dropTrailing_append_newline (l : List Char) :
    dropTrailing (l ++ ['\n']) = dropTrailing l := by
  unfold dropTrailing
  rw [List.reverse_append]
  simp [List.dropWhile_cons, isPyWs]

/-- `stripChars` ignores one layer of newline padding. -/
theorem stripChars_pad (l : List Char) :
    stripChars ('\n' :: (l ++ ['\n'])) = stripChars l := by
  unfold stripChars dropLeading
  rw [List.dropWhile_cons, if_pos (by decide)]
  rw [List.dropWhile_append]
  by_cases he : (List.dropWhile isPyWs l).isEmpty
  · rw [if_pos he]
    rw [List.isEmpty_iff.mp he]
    rfl
  · rw [if_neg he]
    exact dropTrailing_append_newline _

/-- A fence occurrence in `pre ++ rest` with a backtick-free `pre` lies in
`rest`. -/
theorem fence_infix_right {pre rest : List Char}
    (h : fenceChars <:+: pre ++ rest) (hpre : '`' ∉ pre) :
    fenceChars <:+: rest := by
  induction pre with
  | nil => simpa using h
  | cons c pre ih =>
    rw [List.cons_append] at h
    rcases List.infix_cons_iff.mp h with hpref | hinf
    · exfalso
      have hc : '`' = c := (List.cons_prefix_cons.mp hpref).1
      exact hpre (hc ▸ List.mem_cons_self c pre)
    · exact ih hinf (fun hm => hpre (List.mem_cons_of_mem c hm))

/-- A fence occurrence in `rest ++ post` with a backtick-free `post` lies
in `rest`. -/
theorem fence_infix_left {rest post : List Char}
    (h : fenceChars <:+: rest ++ post) (hpost : '`' ∉ post) :
    fenceChars <:+: rest := by
  have h1 : fenceChars.reverse <:+: (rest ++ post).reverse :=
    List.reverse_infix.mpr h
  have h2 : fenceChars.reverse = fenceChars := by decide
  rw [List.reverse_append, h2] at h1
  have h3 : fenceChars <:+: rest.reverse :=
    fence_infix_right h1 (by simpa using hpost)
  refine List.reverse_infix.mp ?_
  rw [h2]
  exact h3

/-- `split("```")[1]`: scanning the text after the opening fence stops
exactly at the closing fence, when the middle contains no fence occurrence
and does not end in a backtick. -/
theorem takeUntilFence_append_fence (m : List Char)
    (hm : ¬ fenceChars <:+: m) (hlast : m.getLast? ≠ some '`') :
    takeUntilFence (m ++ fenceChars) = m := by
  induction m with
  | nil => rfl
  | cons c m ih =>
    have hne : ((c :: m) ++ fenceChars).take 3 ≠ fenceChars := by
      intro heq
      match m with
      | [] =>
        simp [fenceChars] at heq
        exact (show c ≠ '`' by simpa using hlast) heq
      | [b] =>
        simp [fenceChars] at heq
        exact (show b ≠ '`' by simpa using hlast) heq.2
      | b1 :: b2 :: m2 =>
        simp [fenceChars] at heq
        exact hm ⟨[], m2, by simp [fenceChars, heq.1, heq.2.1, heq.2.2]⟩
    rw [List.cons_append]
    unfold takeUntilFence
    have hcond : ¬((c :: (m ++ fenceChars)).take 3 = fenceChars) := by
      rw [← List.cons_append]
      exact hne
    rw [if_neg hcond]
    congr 1
    apply ih
    · intro hi
      exact hm (hi.trans ⟨[c], [], by simp⟩)
    · match m with
      | [] => simp
      | b :: m2 => simpa [List.getLast?_cons_cons] using hlast

/-- `stripChars` is idempotent. -/
theorem stripChars_idem (l : List Char) :
    stripChars (stripChars l) = stripChars l := by
  unfold stripChars
  have h1 : dropLeading (dropTrailing (dropLeading l)) =
      dropTrailing (dropLeading l) := by
    cases hY : dropTrailing (dropLeading l) with
    | nil => rfl
    | cons a X =>
      have hpre : (a :: X) <+: dropLeading l :=
        hY ▸ dropTrailing_prefix_self (dropLeading l)
      obtain ⟨t, ht⟩ := hpre
      have hhead : (dropLeading l).head? = some a := by
        rw [← ht]; rfl
      have h5 := List.head?_dropWhile_not isPyWs l
      rw [show List.dropWhile isPyWs l = dropLeading l from rfl] at h5
      rw [hhead] at h5
      unfold dropLeading
      rw [List.dropWhile_cons, if_neg (by simp [h5])]
  rw [h1]
  unfold dropTrailing
  rw [List.reverse_reverse, dropWhile_idem]

/-- `_parse_response`'s fence cleanup on a canonically fenced text: the
text between the fences is recovered (and a leading `json` tag is
dropped). -/
theorem stripFences_fenced (mid : List Char) (hm : ¬ fenceChars <:+: mid)
    (hlast : mid.getLast? ≠ some '`') :
    stripFences (fenceChars ++ (mid ++ fenceChars)) =
      if mid.take 4 = ['j', 's', 'o', 'n'] then mid.drop 4 else mid := by
  have hdrop : (fenceChars ++ (mid ++ fenceChars)).drop 3 = mid ++ fenceChars := rfl
  have htake : (fenceChars ++ (mid ++ fenceChars)).take 3 = fenceChars := rfl
  unfold stripFences
  rw [if_pos htake, hdrop, takeUntilFence_append_fence mid hm hlast]

/-- The json-tagged fenced wrapping strips back to the stripped payload,
for fence-free payloads. -/
theorem stripResponse_wrapJson (p : String)
    (hp : ¬ fenceChars <:+: p.toList) :
    stripResponse (wrapJson p) = String.mk (stripChars p.toList) := by
  have hnot : ¬ fenceChars <:+: (['j', 's', 'o', 'n', '\n'] ++ (p.toList ++ ['\n'])) := by
    intro hi
    exact hp (fence_infix_left (fence_infix_right hi (by decide)) (by decide))
  have hlastJ : (['j', 's', 'o', 'n', '\n'] ++ (p.toList ++ ['\n'])).getLast? ≠ some '`' := by
    rw [show (['j', 's', 'o', 'n', '\n'] ++ (p.toList ++ ['\n'])) =
        ((['j', 's', 'o', 'n', '\n'] ++ p.toList) ++ ['\n']) by simp,
      List.getLast?_concat]
    decide
  have hw : (wrapJson p).toList =
      fenceChars ++ ((['j', 's', 'o', 'n', '\n'] ++ (p.toList ++ ['\n'])) ++ fenceChars) := by
    show ("```json\n" ++ p ++ "\n```").data = _
    rw [String.data_append, String.data_append]
    rw [show ("```json\n" : String).data = ['`', '`', '`', 'j', 's', 'o', 'n', '\n'] from rfl]
    rw [show ("\n```" : String).data = ['\n', '`', '`', '`'] from rfl]
    simp [fenceChars]
  have hself : stripChars ((wrapJson p).toList) = (wrapJson p).toList := by
    rw [hw]
    rw [show fenceChars ++ ((['j', 's', 'o', 'n', '\n'] ++ (p.toList ++ ['\n'])) ++ fenceChars) =
        '`' :: ((['`', '`', 'j', 's', 'o', 'n', '\n'] ++ (p.toList ++ ['\n','`','`'])) ++ ['`']) by
      simp [fenceChars]]
    exact stripChars_eq_self _ _ _ (by decide) (by decide)
  unfold stripResponse
  rw [hself, hw, stripFences_fenced _ hnot hlastJ]
  rw [if_pos (show (['j', 's', 'o', 'n', '\n'] ++ (p.toList ++ ['\n'])).take 4 = ['j', 's', 'o', 'n'] from rfl)]
  rw [show (['j', 's', 'o', 'n', '\n'] ++ (p.toList ++ ['\n'])).drop 4 = '\n' :: (p.toList ++ ['\n']) from rfl]
  rw [stripChars_pad]

/-- The untagged fenced wrapping strips back to the stripped payload, for
fence-free payloads. -/
theorem stripResponse_wrapPlain (p : String)
    (hp : ¬ fenceChars <:+: p.toList) :
    stripResponse (wrapPlain p) = String.mk (stripChars p.toList) := by
  have hnot : ¬ fenceChars <:+: (['\n'] ++ (p.toList ++ ['\n'])) := by
    intro hi
    exact hp (fence_infix_left (fence_infix_right hi (by decide)) (by decide))
  have hlastJ : (['\n'] ++ (p.toList ++ ['\n'])).getLast? ≠ some '`' := by
    rw [show (['\n'] ++ (p.toList ++ ['\n'])) =
        ((['\n'] ++ p.toList) ++ ['\n']) by simp,
      List.getLast?_concat]
    decide
  have hw : (wrapPlain p).toList =
      fenceChars ++ ((['\n'] ++ (p.toList ++ ['\n'])) ++ fenceChars) := by
    show ("```\n" ++ p ++ "\n```").data = _
    rw [String.data_append, String.data_append]
    rw [show ("```\n" : String).data = ['`', '`', '`', '\n'] from rfl]
    rw [show ("\n```" : String).data = ['\n', '`', '`', '`'] from rfl]
    simp [fenceChars]
  have hself : stripChars ((wrapPlain p).toList) = (wrapPlain p).toList := by
    rw [hw]
    rw [show fenceChars ++ ((['\n'] ++ (p.toList ++ ['\n'])) ++ fenceChars) =
        '`' :: ((['`', '`', '\n'] ++ (p.toList ++ ['\n','`','`'])) ++ ['`']) by
      simp [fenceChars]]
    exact stripChars_eq_self _ _ _ (by decide) (by decide)
  unfold stripResponse
  rw [hself, hw, stripFences_fenced _ hnot hlastJ]
  rw [if_neg (show ¬(['\n'] ++ (p.toList ++ ['\n'])).take 4 = ['j', 's', 'o', 'n'] by simp)]
  rw [show (['\n'] ++ (p.toList ++ ['\n'])) = '\n' :: (p.toList ++ ['\n']) from rfl]
  rw [stripChars_pad]

/-- An unfenced (fence-free) response is simply stripped. -/
theorem stripResponse_unfenced (p : String)
    (hp : ¬ fenceChars <:+: p.toList) :
    stripResponse p = String.mk (stripChars p.toList) := by
  unfold stripResponse
  have hnf : ¬ (stripChars p.toList).take 3 = fenceChars := by
    intro h3
    apply hp
    have hpre : fenceChars <+: stripChars p.toList := by
      rw [← h3]; exact List.take_prefix 3 _
    exact (hpre.isInfix).trans (stripChars_infix_self _)
  unfold stripFences
  rw [if_neg hnf, stripChars_idem]

/-- Claim C5 (amended): for every JSON payload that does not itself
contain the fence marker ```` ``` ````, parsing the payload wrapped in
fenced code-block markers — with or without the `json` language tag —
yields exactly the record obtained by parsing it unwrapped (both reduce to
the whitespace-trimmed payload). -/
theorem fence_wrap_transparent (p : String)
    (hp : ¬ fenceChars <:+: p.toList) :
    parse_response (wrapJson p) = parse_response p ∧
    parse_response (wrapPlain p) = parse_response p := by
  unfold parse_response
  rw [stripResponse_wrapJson p hp, stripResponse_wrapPlain p hp,
    stripResponse_unfenced p hp]
  exact ⟨rfl, rfl⟩

/-- Witness for `fence_wrap_transparent` on a concrete fence-free
payload. -/
theorem fence_wrap_transparent_witness :
    (¬ fenceChars <:+: ("\x7b\"attack\": false\x7d" : String).toList) ∧
    (parse_response (wrapJson "\x7b\"attack\": false\x7d") =
        parse_response "\x7b\"attack\": false\x7d" ∧
      parse_response (wrapPlain "\x7b\"attack\": false\x7d") =
        parse_response "\x7b\"attack\": false\x7d") :=
  ⟨by decide, fence_wrap_transparent "\x7b\"attack\": false\x7d" (by decide)⟩

end PromptShield
